import Mathlib

/-!
Verification of the resource-matching and span-enrichment utilities of
`packages/opentelemetry-sdk-trace-web/src/utils.ts`.

The TypeScript functions are shallowly embedded as Lean definitions:

* browser performance timestamps (`DOMHighResTimeStamp`) are modelled as `Nat`
  milliseconds, and OpenTelemetry `HrTime` pairs as `Nat × Nat`;
* the time conversions `hrTimeToNanoseconds` and `timeInputToHrTime` imported
  from `@opentelemetry/core` are modelled for whole-millisecond inputs;
* JavaScript `String.prototype.toLowerCase` is modelled on ASCII letters
  (`jsCharToLower`), which is exact for every initiator type a browser emits;
* the `WeakSet` of ignored resources is modelled as its membership predicate;
* `span.addEvent` / `span.setAttribute` side effects are modelled by explicit
  state passing on a `Span` record holding the lists of events and attributes;
* URL parsing (`parseUrl`, `location.origin`) is a browser capability, so
  `getResource` receives the parsed span URL (`href`, `origin`) and the page
  origin as parameters.
-/

namespace OtelWebUtils

set_option maxHeartbeats 1000000
set_option maxRecDepth 2000

/-- OpenTelemetry high-resolution time: a pair of seconds and nanoseconds. -/
abbrev HrTime := Nat × Nat

/-- Models `hrTimeToNanoseconds` from `@opentelemetry/core`:
seconds times 10^9 plus the nanosecond component. -/
def hrTimeToNanoseconds (t : HrTime) : Nat :=
  t.1 * 1000000000 + t.2

/-- Models `timeInputToHrTime` from `@opentelemetry/core` restricted to
whole-millisecond numeric inputs: split milliseconds into seconds and
nanoseconds. -/
def timeInputToHrTime (millis : Nat) : HrTime :=
  (millis / 1000, millis % 1000 * 1000000)

/-- The composition `hrTimeToNanoseconds (timeInputToHrTime _)` applied by
`utils.ts` to every performance-entry timestamp. -/
def epochMillisToNanos (millis : Nat) : Nat :=
  hrTimeToNanoseconds (timeInputToHrTime millis)

lemma epochMillisToNanos_eq (m : Nat) : epochMillisToNanos m = m * 1000000 := by
  unfold epochMillisToNanos hrTimeToNanoseconds timeInputToHrTime
  omega

lemma epochMillisToNanos_le_iff (a b : Nat) :
    epochMillisToNanos a ≤ epochMillisToNanos b ↔ a ≤ b := by
  rw [epochMillisToNanos_eq, epochMillisToNanos_eq]
  omega

/-- Models `Char` lowercasing as performed by JavaScript
`String.prototype.toLowerCase` on the ASCII range. -/
def jsCharToLower (c : Char) : Char :=
  if 65 ≤ c.toNat ∧ c.toNat ≤ 90 then Char.ofNat (c.toNat + 32) else c

/-- Models JavaScript `String.prototype.toLowerCase` (ASCII range). -/
def jsToLower (s : String) : String :=
  ⟨s.data.map jsCharToLower⟩

/-- Models the JavaScript short-circuit `s || d` for an optional string `s`:
`undefined` and the empty string are falsy and select the default. -/
def jsOrString (s : Option String) (d : String) : String :=
  match s with
  | none => d
  | some v => if v = "" then d else v

/-- The fields of a browser `PerformanceResourceTiming` entry that the
resource matcher in `utils.ts` reads. -/
structure PerformanceResourceTiming where
  name : String
  initiatorType : String
  fetchStart : Nat
  responseEnd : Nat
deriving DecidableEq, Repr

/-- The result record of `getResource` (`PerformanceResourceTimingInfo`). -/
structure PerformanceResourceTimingInfo where
  corsPreFlightRequest : Option PerformanceResourceTiming
  mainRequest : Option PerformanceResourceTiming
deriving DecidableEq, Repr

/-- The initiator-type comparison performed inside `filterResourcesForSpan`:
the resource's own initiator type is lowercased, the requested one is used
verbatim after JavaScript defaulting (`initiatorType || 'xmlhttprequest'`). -/
def initiatorMatches (resource : PerformanceResourceTiming)
    (initiatorType : Option String) : Bool :=
  jsToLower resource.initiatorType == jsOrString initiatorType "xmlhttprequest"

/-- The predicate of the first `filter` in `filterResourcesForSpan`: the
initiator type matches, the URL equals the span URL, and the converted
fetch-start / response-end timestamps fall inside the span window. -/
def resourceMatchesSpan (spanUrl : String) (startTime endTime : Nat)
    (initiatorType : Option String)
    (resource : PerformanceResourceTiming) : Bool :=
  initiatorMatches resource initiatorType &&
  resource.name == spanUrl &&
  decide (startTime ≤ epochMillisToNanos resource.fetchStart) &&
  decide (epochMillisToNanos resource.responseEnd ≤ endTime)

/-- Embedding of `filterResourcesForSpan` from `utils.ts`: keep the resources
whose initiator type matches, whose URL equals the span URL, and whose
converted fetch-start / response-end timestamps fall inside the span window;
then, when any survived, drop the ones in the ignored set. -/
def filterResourcesForSpan (spanUrl : String)
    (startTimeHR endTimeHR : HrTime)
    (resources : List PerformanceResourceTiming)
    (ignoredResources : PerformanceResourceTiming → Bool)
    (initiatorType : Option String) : List PerformanceResourceTiming :=
  let startTime := hrTimeToNanoseconds startTimeHR
  let endTime := hrTimeToNanoseconds endTimeHR
  let filteredResources :=
    resources.filter (resourceMatchesSpan spanUrl startTime endTime initiatorType)
  if 0 < filteredResources.length then
    filteredResources.filter fun resource => !ignoredResources resource
  else
    filteredResources

/-- Stable insertion of a resource after every element whose fetch-start time
is less than or equal to its own. -/
def insertByFetchStart (r : PerformanceResourceTiming) :
    List PerformanceResourceTiming → List PerformanceResourceTiming
  | [] => [r]
  | x :: xs =>
    if x.fetchStart ≤ r.fetchStart then x :: insertByFetchStart r xs
    else r :: x :: xs

/-- Embedding of `sortResources` from `utils.ts`: a stable sort of the
filtered resources by their fetch-start time (JavaScript `Array.sort` with the
three-way fetch-start comparator is a stable ascending sort). -/
def sortResources (filteredResources : List PerformanceResourceTiming) :
    List PerformanceResourceTiming :=
  filteredResources.foldl (fun acc r => insertByFetchStart r acc) []

/-- JavaScript truthiness of the `bestGap` variable in `findMainRequest`:
`undefined` and `0` are falsy. -/
def jsTruthyGap : Option Int → Bool
  | none => false
  | some g => g != 0

/-- The `for` loop of `findMainRequest`, as structural recursion over the
resources after the first one, threading the `mainRequest` and `bestGap`
variables. -/
def findMainRequestLoop (spanEndTime minTime : Nat) :
    List PerformanceResourceTiming →
    Option PerformanceResourceTiming → Option Int →
    Option PerformanceResourceTiming × Option Int
  | [], mainRequest, bestGap => (mainRequest, bestGap)
  | resource :: rest, mainRequest, bestGap =>
    let resourceStartTime := epochMillisToNanos resource.fetchStart
    let resourceEndTime := epochMillisToNanos resource.responseEnd
    let currentGap : Int := (spanEndTime : Int) - (resourceEndTime : Int)
    if minTime ≤ resourceStartTime ∧
        (jsTruthyGap bestGap = false ∨ currentGap < bestGap.getD 0) then
      findMainRequestLoop spanEndTime minTime rest (some resource) (some currentGap)
    else
      findMainRequestLoop spanEndTime minTime rest mainRequest bestGap

/-- Embedding of `findMainRequest` from `utils.ts`: starting from
`resources[1]`, pick a later resource whenever it starts at or after the
preflight end time and either no best gap is recorded (JavaScript falsiness,
so a recorded gap of `0` counts as unrecorded) or its gap to the span end
strictly improves the recorded one. -/
def findMainRequest (resources : List PerformanceResourceTiming)
    (corsPreFlightRequestEndTime : Nat) (spanEndTimeHR : HrTime) :
    Option PerformanceResourceTiming :=
  let spanEndTime := hrTimeToNanoseconds spanEndTimeHR
  let minTime := epochMillisToNanos corsPreFlightRequestEndTime
  (findMainRequestLoop spanEndTime minTime (resources.drop 1) resources[1]? none).1

/-- Embedding of `getResource` from `utils.ts`. URL parsing is a browser
capability, so the parsed span URL (`href` used for the name comparison,
`origin`) and the page origin (`location.origin`, absent outside a browser)
are parameters. -/
def getResource (spanUrlHref spanUrlOrigin : String)
    (pageOrigin : Option String)
    (startTimeHR endTimeHR : HrTime)
    (resources : List PerformanceResourceTiming)
    (ignoredResources : PerformanceResourceTiming → Bool)
    (initiatorType : Option String) : PerformanceResourceTimingInfo :=
  let filteredResources :=
    filterResourcesForSpan spanUrlHref startTimeHR endTimeHR resources
      ignoredResources initiatorType
  if filteredResources.length = 0 then
    { corsPreFlightRequest := none, mainRequest := none }
  else if filteredResources.length = 1 then
    { corsPreFlightRequest := none, mainRequest := filteredResources[0]? }
  else
    let sorted := sortResources filteredResources
    if some spanUrlOrigin ≠ pageOrigin ∧ 1 < sorted.length then
      match sorted with
      | [] =>
        -- unreachable: `sorted` has more than one element in this branch
        { corsPreFlightRequest := none, mainRequest := none }
      | corsCandidate :: rest =>
        match findMainRequest (corsCandidate :: rest)
            corsCandidate.responseEnd endTimeHR with
        | none =>
          -- unreachable: `findMainRequest` starts from `resources[1]`,
          -- which exists because `sorted` has more than one element
          { corsPreFlightRequest := some corsCandidate, mainRequest := none }
        | some mainRequest =>
          if mainRequest.fetchStart < corsCandidate.responseEnd then
            { corsPreFlightRequest := none, mainRequest := some corsCandidate }
          else
            { corsPreFlightRequest := some corsCandidate,
              mainRequest := some mainRequest }
    else
      { corsPreFlightRequest := none, mainRequest := filteredResources[0]? }

/-- The gap computed by `findMainRequest` for a candidate: span end time minus
the candidate's converted response-end time (may be negative, as in
JavaScript). -/
def resourceGap (spanEndTime : Nat) (r : PerformanceResourceTiming) : Int :=
  (spanEndTime : Int) - (epochMillisToNanos r.responseEnd : Int)

/-- The candidates `findMainRequest` may pick: the resources after the first
sorted one whose converted fetch-start time is at or after the preflight
candidate's converted response-end time. -/
def eligibleCandidates (resources : List PerformanceResourceTiming)
    (corsPreFlightRequestEndTime : Nat) : List PerformanceResourceTiming :=
  (resources.drop 1).filter fun r =>
    decide (epochMillisToNanos corsPreFlightRequestEndTime ≤
      epochMillisToNanos r.fetchStart)

/-- Selection rule stated by the specification for the cross-origin
multi-candidate case: the candidate minimizing `f`, the first encountered
winning ties. -/
def argminFirst {α : Type} (f : α → Int) : List α → Option α
  | [] => none
  | r :: rest =>
    some (match argminFirst f rest with
      | none => r
      | some m => if f r ≤ f m then r else m)

/-- A tracing span, modelled by the lists of events and attributes the
tracing API has recorded on it, in call order. -/
structure Span where
  events : List (String × Int)
  attributes : List (String × Int)
deriving DecidableEq, Repr

/-- Models `span.addEvent(name, timestamp)` from the tracing API. -/
def Span.addEvent (span : Span) (name : String) (timestamp : Int) : Span :=
  { span with events := span.events ++ [(name, timestamp)] }

/-- Models `span.setAttribute(key, value)` from the tracing API. -/
def Span.setAttribute (span : Span) (key : String) (value : Int) : Span :=
  { span with attributes := span.attributes ++ [(key, value)] }

/-- A `PerformanceEntries` record as consumed by the span enricher: a partial
map from milestone names to numeric values (`none` models a field that is
absent or not a number), plus the optional `name` URL string read by the
`startsWith('https:')` check. -/
structure PerformanceEntries where
  timings : String → Option Int
  name : Option String

/-- Key of the `PerformanceTimingNames.FETCH_START` milestone. -/
def PTN_FETCH_START : String := "fetchStart"

/-- Key of the `PerformanceTimingNames.DOMAIN_LOOKUP_START` milestone. -/
def PTN_DOMAIN_LOOKUP_START : String := "domainLookupStart"

/-- Key of the `PerformanceTimingNames.DOMAIN_LOOKUP_END` milestone. -/
def PTN_DOMAIN_LOOKUP_END : String := "domainLookupEnd"

/-- Key of the `PerformanceTimingNames.CONNECT_START` milestone. -/
def PTN_CONNECT_START : String := "connectStart"

/-- Key of the `PerformanceTimingNames.SECURE_CONNECTION_START` milestone. -/
def PTN_SECURE_CONNECTION_START : String := "secureConnectionStart"

/-- Key of the `PerformanceTimingNames.CONNECT_END` milestone. -/
def PTN_CONNECT_END : String := "connectEnd"

/-- Key of the `PerformanceTimingNames.REQUEST_START` milestone. -/
def PTN_REQUEST_START : String := "requestStart"

/-- Key of the `PerformanceTimingNames.RESPONSE_START` milestone. -/
def PTN_RESPONSE_START : String := "responseStart"

/-- Key of the `PerformanceTimingNames.RESPONSE_END` milestone. -/
def PTN_RESPONSE_END : String := "responseEnd"

/-- Key of the `PerformanceTimingNames.ENCODED_BODY_SIZE` field. -/
def PTN_ENCODED_BODY_SIZE : String := "encodedBodySize"

/-- Key of the `PerformanceTimingNames.DECODED_BODY_SIZE` field. -/
def PTN_DECODED_BODY_SIZE : String := "decodedBodySize"

/-- The `SEMATTRS_HTTP_RESPONSE_CONTENT_LENGTH` semantic-convention key. -/
def SEMATTRS_HTTP_RESPONSE_CONTENT_LENGTH : String :=
  "http.response_content_length"

/-- The `SEMATTRS_HTTP_RESPONSE_CONTENT_LENGTH_UNCOMPRESSED`
semantic-convention key. -/
def SEMATTRS_HTTP_RESPONSE_CONTENT_LENGTH_UNCOMPRESSED : String :=
  "http.response_content_length_uncompressed"

/-- Embedding of `addSpanNetworkEvent` from `utils.ts`: look up the milestone
value and the reference value (name defaulting through JavaScript `||` to
fetch-start); when both are present and numeric and the milestone time is at
or after the reference time, add the event and return the span, otherwise
return `undefined` (the span state is unchanged in that case). -/
def addSpanNetworkEvent (span : Span) (performanceName : String)
    (entries : PerformanceEntries) (refPerfName : Option String) :
    Option Span :=
  let perfTime := entries.timings performanceName
  let refName := jsOrString refPerfName PTN_FETCH_START
  let refTime := entries.timings refName
  match perfTime, refTime with
  | some p, some r =>
    if r ≤ p then some (span.addEvent performanceName p) else none
  | _, _ => none

/-- Embedding of `addSpanNetworkEvents` from `utils.ts`: emit the milestone
events in source order (`secureConnectionStart` only when the entry's name
starts with `https:`), then set the content-length attribute when the encoded
body size is present, and the uncompressed-content-length attribute when the
decoded body size is present and differs from the encoded one. Each
`addSpanNetworkEvent` call's returned span (or the unchanged span when it
returned `undefined`) is the state for the next call. -/
def addSpanNetworkEvents (span : Span) (resource : PerformanceEntries) : Span :=
  let s1 := (addSpanNetworkEvent span PTN_FETCH_START resource none).getD span
  let s2 := (addSpanNetworkEvent s1 PTN_DOMAIN_LOOKUP_START resource none).getD s1
  let s3 := (addSpanNetworkEvent s2 PTN_DOMAIN_LOOKUP_END resource none).getD s2
  let s4 := (addSpanNetworkEvent s3 PTN_CONNECT_START resource none).getD s3
  let s5 :=
    if (match resource.name with
        | some n => n.startsWith "https:"
        | none => false) then
      (addSpanNetworkEvent s4 PTN_SECURE_CONNECTION_START resource none).getD s4
    else s4
  let s6 := (addSpanNetworkEvent s5 PTN_CONNECT_END resource none).getD s5
  let s7 := (addSpanNetworkEvent s6 PTN_REQUEST_START resource none).getD s6
  let s8 := (addSpanNetworkEvent s7 PTN_RESPONSE_START resource none).getD s7
  let s9 := (addSpanNetworkEvent s8 PTN_RESPONSE_END resource none).getD s8
  let encodedLength := resource.timings PTN_ENCODED_BODY_SIZE
  let s10 :=
    match encodedLength with
    | some e => s9.setAttribute SEMATTRS_HTTP_RESPONSE_CONTENT_LENGTH e
    | none => s9
  let decodedLength := resource.timings PTN_DECODED_BODY_SIZE
  match decodedLength with
  | some d =>
    if encodedLength ≠ some d then
      s10.setAttribute SEMATTRS_HTTP_RESPONSE_CONTENT_LENGTH_UNCOMPRESSED d
    else s10
  | none => s10

/-- The body representations `getXHRBodyLength` dispatches over, each
carrying the data its branch in the source reads: a `Document` body (its own
serialization, which the source never reads), a `Blob` (its `size`), an
`ArrayBuffer` or view (its `byteLength`), `FormData` and `URLSearchParams`
(their URL-encoded serialization), a string, or anything unrecognized. -/
inductive XHRBody where
  | document (serialized : String)
  | blob (size : Nat)
  | bufferOrView (byteLength : Nat)
  | formData (serialized : String)
  | urlSearchParams (serialized : String)
  | str (s : String)
  | unrecognized
deriving DecidableEq, Repr

/-- Result of the body-length estimator: the returned length and whether the
diagnostic warning was logged. -/
structure BodyLengthResult where
  length : Nat
  warned : Bool
deriving DecidableEq, Repr

/-- Embedding of `getXHRBodyLength` from `utils.ts`. Note the `Document`
branch of the source serializes the page's global `document`
(`new XMLSerializer().serializeToString(document)`), not the `body` argument,
so the result in that branch depends only on `globalDocumentSerialized`. -/
def getXHRBodyLength (globalDocumentSerialized : String) :
    XHRBody → BodyLengthResult
  | .document _ => ⟨globalDocumentSerialized.length, false⟩
  | .blob size => ⟨size, false⟩
  | .bufferOrView byteLength => ⟨byteLength, false⟩
  | .formData serialized => ⟨serialized.length, false⟩
  | .urlSearchParams serialized => ⟨serialized.length, false⟩
  | .str s => ⟨s.length, false⟩
  | .unrecognized => ⟨0, true⟩

/-- Same-origin counterexample input: the resource listed first in the buffer
starts later than the second one. -/
def rBufFirst : PerformanceResourceTiming := ⟨"u", "xmlhttprequest", 5, 6⟩

/-- Same-origin counterexample input: the earlier resource, listed second. -/
def rBufSecond : PerformanceResourceTiming := ⟨"u", "xmlhttprequest", 3, 4⟩

/-- Cross-origin sequential pair: the preflight-shaped earlier entry. -/
def rSeqA : PerformanceResourceTiming := ⟨"u", "xmlhttprequest", 1, 2⟩

/-- Cross-origin sequential pair: the later entry, starting after `rSeqA`
ends. -/
def rSeqB : PerformanceResourceTiming := ⟨"u", "xmlhttprequest", 3, 4⟩

/-- Cross-origin overlapping pair: the earlier entry. -/
def rOvA : PerformanceResourceTiming := ⟨"u", "xmlhttprequest", 1, 5⟩

/-- Cross-origin overlapping pair: the later entry, starting before `rOvA`
ends. -/
def rOvB : PerformanceResourceTiming := ⟨"u", "xmlhttprequest", 2, 4⟩

/-- Zero-gap counterexample: the preflight candidate. -/
def rPre : PerformanceResourceTiming := ⟨"u", "xmlhttprequest", 0, 1⟩

/-- Zero-gap counterexample: an eligible candidate whose response end equals
the span end, so its gap is zero. -/
def rZeroGap : PerformanceResourceTiming := ⟨"u", "xmlhttprequest", 1, 5⟩

/-- Zero-gap counterexample: a later eligible candidate with a strictly
larger gap. -/
def rWorseGap : PerformanceResourceTiming := ⟨"u", "xmlhttprequest", 2, 3⟩

/-- Nonzero-gap witness input: the preflight candidate. -/
def rPreW : PerformanceResourceTiming := ⟨"u", "xmlhttprequest", 0, 1⟩

/-- Nonzero-gap witness input: eligible candidate with gap one millisecond. -/
def rGapA : PerformanceResourceTiming := ⟨"u", "xmlhttprequest", 1, 4⟩

/-- Nonzero-gap witness input: eligible candidate with gap two
milliseconds. -/
def rGapB : PerformanceResourceTiming := ⟨"u", "xmlhttprequest", 2, 3⟩

/-- Ignored-set witness input: the entry placed in the ignored set. -/
def rIgn : PerformanceResourceTiming := ⟨"u", "xmlhttprequest", 1, 2⟩

/-- Ignored-set witness input: an otherwise identical entry that is not
ignored. -/
def rNotIgn : PerformanceResourceTiming := ⟨"u", "xmlhttprequest", 3, 4⟩

/-- Enricher witness input: an entry with fetch-start 10 and response-end
20. -/
def entW7 : PerformanceEntries :=
  ⟨fun k => if k = "fetchStart" then some 10
    else if k = "responseEnd" then some 20 else none, none⟩

/-- Enricher witness input: an entry with encoded body size 120 and decoded
body size 340. -/
def entW8 : PerformanceEntries :=
  ⟨fun k => if k = "encodedBodySize" then some 120
    else if k = "decodedBodySize" then some 340 else none, none⟩

/-! ### Helper lemmas -/

lemma toNat_ofNat_valid (n : Nat) (h : n.isValidChar) :
    (Char.ofNat n).toNat = n := by
  rw [Char.ofNat, dif_pos h]
  simp [Char.ofNatAux, Char.toNat, UInt32.toNat]

lemma jsCharToLower_not_upper (c : Char) :
    ¬(65 ≤ (jsCharToLower c).toNat ∧ (jsCharToLower c).toNat ≤ 90) := by
  unfold jsCharToLower
  split
  · rename_i h
    rw [toNat_ofNat_valid]
    · omega
    · left
      omega
  · assumption

lemma resourceMatchesSpan_eq_true (spanUrl : String) (st et : Nat)
    (initiatorType : Option String) (r : PerformanceResourceTiming) :
    resourceMatchesSpan spanUrl st et initiatorType r = true ↔
      initiatorMatches r initiatorType = true ∧ r.name = spanUrl ∧
      st ≤ epochMillisToNanos r.fetchStart ∧
      epochMillisToNanos r.responseEnd ≤ et := by
  simp only [resourceMatchesSpan, Bool.and_eq_true, beq_iff_eq,
    decide_eq_true_eq]
  tauto

lemma mem_filterResourcesForSpan (spanUrl : String)
    (startTimeHR endTimeHR : HrTime)
    (resources : List PerformanceResourceTiming)
    (ignoredResources : PerformanceResourceTiming → Bool)
    (initiatorType : Option String) (r : PerformanceResourceTiming) :
    r ∈ filterResourcesForSpan spanUrl startTimeHR endTimeHR resources
        ignoredResources initiatorType ↔
      r ∈ resources ∧ initiatorMatches r initiatorType = true ∧
      r.name = spanUrl ∧
      hrTimeToNanoseconds startTimeHR ≤ epochMillisToNanos r.fetchStart ∧
      epochMillisToNanos r.responseEnd ≤ hrTimeToNanoseconds endTimeHR ∧
      ignoredResources r = false := by
  simp only [filterResourcesForSpan]
  split
  · rw [List.mem_filter, List.mem_filter]
    simp only [resourceMatchesSpan_eq_true, Bool.not_eq_true', and_assoc]
  · rename_i hlen
    have hnil :
        resources.filter (resourceMatchesSpan spanUrl
          (hrTimeToNanoseconds startTimeHR) (hrTimeToNanoseconds endTimeHR)
          initiatorType) = [] :=
      List.length_eq_zero.mp (Nat.eq_zero_of_not_pos hlen)
    rw [hnil]
    simp only [List.not_mem_nil, false_iff]
    intro hc
    have hmem : r ∈ resources.filter (resourceMatchesSpan spanUrl
        (hrTimeToNanoseconds startTimeHR) (hrTimeToNanoseconds endTimeHR)
        initiatorType) :=
      List.mem_filter.mpr ⟨hc.1,
        (resourceMatchesSpan_eq_true _ _ _ _ _).mpr
          ⟨hc.2.1, hc.2.2.1, hc.2.2.2.1, hc.2.2.2.2.1⟩⟩
    rw [hnil] at hmem
    exact absurd hmem (List.not_mem_nil r)

lemma mem_insertByFetchStart (r x : PerformanceResourceTiming)
    (l : List PerformanceResourceTiming) :
    x ∈ insertByFetchStart r l ↔ x = r ∨ x ∈ l := by
  induction l with
  | nil => simp [insertByFetchStart]
  | cons a as ih =>
    simp only [insertByFetchStart]
    split <;> simp only [List.mem_cons, ih] <;> tauto

lemma length_insertByFetchStart (r : PerformanceResourceTiming)
    (l : List PerformanceResourceTiming) :
    (insertByFetchStart r l).length = l.length + 1 := by
  induction l with
  | nil => simp [insertByFetchStart]
  | cons a as ih =>
    simp only [insertByFetchStart]
    split
    · simp [ih]
    · simp

lemma mem_sortFold (l acc : List PerformanceResourceTiming)
    (x : PerformanceResourceTiming) :
    x ∈ l.foldl (fun acc r => insertByFetchStart r acc) acc ↔
      x ∈ acc ∨ x ∈ l := by
  induction l generalizing acc with
  | nil => simp
  | cons a as ih =>
    rw [List.foldl_cons, ih, mem_insertByFetchStart]
    simp only [List.mem_cons]
    tauto

lemma mem_sortResources (l : List PerformanceResourceTiming)
    (x : PerformanceResourceTiming) :
    x ∈ sortResources l ↔ x ∈ l := by
  unfold sortResources
  rw [mem_sortFold]
  simp

lemma length_sortFold (l acc : List PerformanceResourceTiming) :
    (l.foldl (fun acc r => insertByFetchStart r acc) acc).length =
      acc.length + l.length := by
  induction l generalizing acc with
  | nil => simp
  | cons a as ih =>
    rw [List.foldl_cons, ih, length_insertByFetchStart]
    simp only [List.length_cons]
    omega

lemma length_sortResources (l : List PerformanceResourceTiming) :
    (sortResources l).length = l.length := by
  unfold sortResources
  rw [length_sortFold]
  simp

lemma findMainRequestLoop_fst_mem (se mt : Nat)
    (l : List PerformanceResourceTiming)
    (mr : Option PerformanceResourceTiming) (bg : Option Int)
    (r : PerformanceResourceTiming)
    (h : (findMainRequestLoop se mt l mr bg).1 = some r) :
    mr = some r ∨ r ∈ l := by
  induction l generalizing mr bg with
  | nil =>
    exact Or.inl h
  | cons a as ih =>
    simp only [findMainRequestLoop] at h
    split at h
    · rcases ih _ _ h with h' | h'
      · exact Or.inr (by simp [Option.some_inj.mp h'])
      · exact Or.inr (List.mem_cons_of_mem a h')
    · rcases ih _ _ h with h' | h'
      · exact Or.inl h'
      · exact Or.inr (List.mem_cons_of_mem a h')

lemma findMainRequest_mem (resources : List PerformanceResourceTiming)
    (ce : Nat) (hr : HrTime) (r : PerformanceResourceTiming)
    (h : findMainRequest resources ce hr = some r) : r ∈ resources := by
  unfold findMainRequest at h
  rcases findMainRequestLoop_fst_mem _ _ _ _ _ _ h with h' | h'
  · exact List.getElem?_mem h'
  · exact List.drop_subset 1 resources h'

lemma findMainRequest_pair (a b : PerformanceResourceTiming) (ce : Nat)
    (hr : HrTime) : findMainRequest [a, b] ce hr = some b := by
  show (findMainRequestLoop (hrTimeToNanoseconds hr) (epochMillisToNanos ce)
    [b] (some b) none).1 = some b
  simp only [findMainRequestLoop]
  split <;> rfl

/-- Every resource returned by `getResource` as main request or preflight
request is a member of the filtered candidate list. -/
lemma getResource_result_mem (spanUrlHref spanUrlOrigin : String)
    (pageOrigin : Option String) (startTimeHR endTimeHR : HrTime)
    (resources : List PerformanceResourceTiming)
    (ignoredResources : PerformanceResourceTiming → Bool)
    (initiatorType : Option String) (r : PerformanceResourceTiming)
    (h : (getResource spanUrlHref spanUrlOrigin pageOrigin startTimeHR
        endTimeHR resources ignoredResources initiatorType).mainRequest =
          some r ∨
      (getResource spanUrlHref spanUrlOrigin pageOrigin startTimeHR
        endTimeHR resources ignoredResources initiatorType).corsPreFlightRequest =
          some r) :
    r ∈ filterResourcesForSpan spanUrlHref startTimeHR endTimeHR resources
        ignoredResources initiatorType := by
  simp only [getResource] at h
  split at h
  · simp at h
  · split at h
    · rcases h with h | h
      · exact List.getElem?_mem h
      · simp at h
    · split at h
      · split at h
        · simp at h
        · rename_i corsCandidate rest heq
          split at h
          · rcases h with h | h
            · simp at h
            · rw [← mem_sortResources, heq]
              simp [Option.some_inj.mp h]
          · rename_i mainReq hfmr
            split at h
            · rcases h with h | h
              · rw [← mem_sortResources, heq]
                simp [Option.some_inj.mp h]
              · simp at h
            · rcases h with h | h
              · have := findMainRequest_mem _ _ _ _ hfmr
                rw [Option.some_inj.mp h] at this
                rw [← mem_sortResources, heq]
                exact this
              · rw [← mem_sortResources, heq]
                simp [Option.some_inj.mp h]
      · rcases h with h | h
        · exact List.getElem?_mem h
        · simp at h

/-- C6: an entry that is a member of the ignored set at the time
`getResource` is called is never returned by that call as `mainRequest` or as
`corsPreFlightRequest`. -/
theorem ignored_resource_never_selected (spanUrlHref spanUrlOrigin : String)
    (pageOrigin : Option String) (startTimeHR endTimeHR : HrTime)
    (resources : List PerformanceResourceTiming)
    (ignoredResources : PerformanceResourceTiming → Bool)
    (initiatorType : Option String) (x : PerformanceResourceTiming)
    (hx : ignoredResources x = true) :
    (getResource spanUrlHref spanUrlOrigin pageOrigin startTimeHR endTimeHR
        resources ignoredResources initiatorType).mainRequest ≠ some x ∧
    (getResource spanUrlHref spanUrlOrigin pageOrigin startTimeHR endTimeHR
        resources ignoredResources initiatorType).corsPreFlightRequest ≠
      some x := by
  constructor <;> intro h
  · have hmem := getResource_result_mem _ _ _ _ _ _ _ _ _ (Or.inl h)
    have hig := ((mem_filterResourcesForSpan _ _ _ _ _ _ _).mp hmem).2.2.2.2.2
    rw [hx] at hig
    exact absurd hig (by decide)
  · have hmem := getResource_result_mem _ _ _ _ _ _ _ _ _ (Or.inr h)
    have hig := ((mem_filterResourcesForSpan _ _ _ _ _ _ _).mp hmem).2.2.2.2.2
    rw [hx] at hig
    exact absurd hig (by decide)

/-- C1 (amended): when two or more filtered candidates remain and the span
URL origin equals the page origin, `getResource` returns no
`corsPreFlightRequest`, and its `mainRequest` is the first candidate of the
filtered list in original buffer order (the source returns
`filteredResources[0]`, not the head of the sorted list; the two coincide
exactly when the buffer is already ordered by fetch start). -/
theorem sameOrigin_multi_mainRequest_first_filtered (spanUrlHref spanUrlOrigin : String)
    (pageOrigin : Option String) (startTimeHR endTimeHR : HrTime)
    (resources : List PerformanceResourceTiming)
    (ignoredResources : PerformanceResourceTiming → Bool)
    (initiatorType : Option String)
    (hO : pageOrigin = some spanUrlOrigin)
    (hLen : 2 ≤ (filterResourcesForSpan spanUrlHref startTimeHR endTimeHR
      resources ignoredResources initiatorType).length) :
    getResource spanUrlHref spanUrlOrigin pageOrigin startTimeHR endTimeHR
        resources ignoredResources initiatorType =
      { corsPreFlightRequest := none,
        mainRequest := (filterResourcesForSpan spanUrlHref startTimeHR
          endTimeHR resources ignoredResources initiatorType)[0]? } := by
  subst hO
  simp only [getResource]
  rw [if_neg (by omega), if_neg (by omega), if_neg (by simp)]

/-- C2: with exactly two cross-origin filtered candidates whose sorted order
is `[a, b]` and where the later candidate starts at or after the earlier
candidate's response end, `getResource` names the earlier candidate the
`corsPreFlightRequest` and the later candidate the `mainRequest`. -/
theorem crossOrigin_sequential_pair_match (spanUrlHref spanUrlOrigin : String)
    (pageOrigin : Option String) (startTimeHR endTimeHR : HrTime)
    (resources : List PerformanceResourceTiming)
    (ignoredResources : PerformanceResourceTiming → Bool)
    (initiatorType : Option String) (a b : PerformanceResourceTiming)
    (hO : pageOrigin ≠ some spanUrlOrigin)
    (hLen : (filterResourcesForSpan spanUrlHref startTimeHR endTimeHR
      resources ignoredResources initiatorType).length = 2)
    (hSort : sortResources (filterResourcesForSpan spanUrlHref startTimeHR
      endTimeHR resources ignoredResources initiatorType) = [a, b])
    (hSeq : a.responseEnd ≤ b.fetchStart) :
    getResource spanUrlHref spanUrlOrigin pageOrigin startTimeHR endTimeHR
        resources ignoredResources initiatorType =
      { corsPreFlightRequest := some a, mainRequest := some b } := by
  simp only [getResource]
  rw [if_neg (by omega), if_neg (by omega),
    if_pos ⟨Ne.symm hO, by rw [hSort]; simp⟩]
  rw [hSort]
  simp only [findMainRequest_pair]
  rw [if_neg (by omega)]

/-- C4: with exactly two cross-origin filtered candidates whose sorted order
is `[a, b]` and where the selected main request (always `b` for a pair)
starts before the earlier candidate's response end, `getResource` returns
only the earlier entry as `mainRequest` and no `corsPreFlightRequest`. -/
theorem crossOrigin_overlap_pair_match (spanUrlHref spanUrlOrigin : String)
    (pageOrigin : Option String) (startTimeHR endTimeHR : HrTime)
    (resources : List PerformanceResourceTiming)
    (ignoredResources : PerformanceResourceTiming → Bool)
    (initiatorType : Option String) (a b : PerformanceResourceTiming)
    (hO : pageOrigin ≠ some spanUrlOrigin)
    (hLen : (filterResourcesForSpan spanUrlHref startTimeHR endTimeHR
      resources ignoredResources initiatorType).length = 2)
    (hSort : sortResources (filterResourcesForSpan spanUrlHref startTimeHR
      endTimeHR resources ignoredResources initiatorType) = [a, b])
    (hOv : b.fetchStart < a.responseEnd) :
    getResource spanUrlHref spanUrlOrigin pageOrigin startTimeHR endTimeHR
        resources ignoredResources initiatorType =
      { corsPreFlightRequest := none, mainRequest := some a } := by
  simp only [getResource]
  rw [if_neg (by omega), if_neg (by omega),
    if_pos ⟨Ne.symm hO, by rw [hSort]; simp⟩]
  rw [hSort]
  simp only [findMainRequest_pair]
  rw [if_pos hOv]

lemma argminFirst_cons {α : Type} (f : α → Int) (x : α) (l : List α) :
    argminFirst f (x :: l) =
      some (match argminFirst f l with
        | none => x
        | some m => if f x ≤ f m then x else m) := rfl

lemma argminFirst_le_head {α : Type} (f : α → Int) (x b : α) (l : List α)
    (h : argminFirst f (x :: l) = some b) : f b ≤ f x := by
  rw [argminFirst_cons] at h
  rcases hl : argminFirst f l with _ | m
  · rw [hl] at h
    simp only [Option.some.injEq] at h
    rw [← h]
  · rw [hl] at h
    simp only [Option.some.injEq] at h
    by_cases hc : f x ≤ f m
    · rw [if_pos hc] at h
      rw [← h]
    · rw [if_neg hc] at h
      rw [← h]
      omega

lemma argminFirst_skip {α : Type} (f : α → Int) (m r : α) (e : List α)
    (hle : f m ≤ f r) :
    argminFirst f (m :: r :: e) = argminFirst f (m :: e) := by
  rw [argminFirst_cons, argminFirst_cons f m e, argminFirst_cons f r e]
  rcases he : argminFirst f e with _ | be
  · simp only [Option.some.injEq]
    rw [if_pos hle]
  · simp only [Option.some.injEq]
    by_cases h1 : f r ≤ f be
    · rw [if_pos h1, if_pos (le_trans hle h1), if_pos hle]
    · rw [if_neg h1]
  
lemma argminFirst_drop {α : Type} (f : α → Int) (m r : α) (e : List α)
    (hlt : f r < f m) :
    argminFirst f (m :: r :: e) = argminFirst f (r :: e) := by
  rcases hre : argminFirst f (r :: e) with _ | b0
  · rw [argminFirst_cons] at hre
    exact absurd hre (by simp)
  · have hb0 : f b0 ≤ f r := argminFirst_le_head f r b0 e hre
    rw [argminFirst_cons, hre]
    simp only [Option.some.injEq]
    rw [if_neg (not_le.mpr (lt_of_le_of_lt hb0 hlt))]

lemma findMainRequestLoop_cons (se mt : Nat)
    (a : PerformanceResourceTiming) (l : List PerformanceResourceTiming)
    (mr : Option PerformanceResourceTiming) (bg : Option Int) :
    findMainRequestLoop se mt (a :: l) mr bg =
      if mt ≤ epochMillisToNanos a.fetchStart ∧
          (jsTruthyGap bg = false ∨
            (se : Int) - (epochMillisToNanos a.responseEnd : Int) <
              bg.getD 0) then
        findMainRequestLoop se mt l (some a)
          (some ((se : Int) - (epochMillisToNanos a.responseEnd : Int)))
      else
        findMainRequestLoop se mt l mr bg := rfl

lemma jsTruthyGap_some_eq_false (g : Int) :
    jsTruthyGap (some g) = false ↔ g = 0 := by
  simp [jsTruthyGap]

lemma findMainRequestLoop_argmin (se mt : Nat)
    (l : List PerformanceResourceTiming) (m : PerformanceResourceTiming)
    (hm : resourceGap se m ≠ 0)
    (hNZ : ∀ r ∈ l.filter
        (fun r => decide (mt ≤ epochMillisToNanos r.fetchStart)),
      resourceGap se r ≠ 0) :
    (findMainRequestLoop se mt l (some m) (some (resourceGap se m))).1 =
      argminFirst (resourceGap se)
        (m :: l.filter
          (fun r => decide (mt ≤ epochMillisToNanos r.fetchStart))) := by
  induction l generalizing m with
  | nil =>
    simp [findMainRequestLoop, argminFirst]
  | cons a as ih =>
    rw [findMainRequestLoop_cons]
    by_cases ha : mt ≤ epochMillisToNanos a.fetchStart
    · have hfil : (a :: as).filter
          (fun r => decide (mt ≤ epochMillisToNanos r.fetchStart)) =
          a :: as.filter
            (fun r => decide (mt ≤ epochMillisToNanos r.fetchStart)) := by
        simp [ha]
      have hga : resourceGap se a ≠ 0 := by
        apply hNZ
        rw [hfil]
        exact List.mem_cons_self a _
      rw [hfil]
      by_cases hlt : resourceGap se a < resourceGap se m
      · rw [if_pos ⟨ha, Or.inr hlt⟩]
        rw [argminFirst_drop _ _ _ _ hlt]
        exact ih a hga (fun r hr => hNZ r (by rw [hfil]; exact List.mem_cons_of_mem a hr))
      · rw [if_neg]
        · rw [argminFirst_skip _ _ _ _ (not_lt.mp hlt)]
          exact ih m hm (fun r hr => hNZ r (by rw [hfil]; exact List.mem_cons_of_mem a hr))
        · intro hc
          rcases hc.2 with hc2 | hc2
          · exact hm ((jsTruthyGap_some_eq_false _).mp hc2)
          · exact hlt hc2
    · have hfil : (a :: as).filter
          (fun r => decide (mt ≤ epochMillisToNanos r.fetchStart)) =
          as.filter
            (fun r => decide (mt ≤ epochMillisToNanos r.fetchStart)) := by
        simp [ha]
      rw [if_neg (fun hc => ha hc.1), hfil]
      exact ih m hm (fun r hr => hNZ r (by rw [hfil]; exact hr))

lemma findMainRequestLoop_start (se mt : Nat)
    (l : List PerformanceResourceTiming)
    (mr0 : Option PerformanceResourceTiming)
    (hNZ : ∀ r ∈ l.filter
        (fun r => decide (mt ≤ epochMillisToNanos r.fetchStart)),
      resourceGap se r ≠ 0)
    (hne : l.filter
        (fun r => decide (mt ≤ epochMillisToNanos r.fetchStart)) ≠ []) :
    (findMainRequestLoop se mt l mr0 none).1 =
      argminFirst (resourceGap se)
        (l.filter (fun r => decide (mt ≤ epochMillisToNanos r.fetchStart))) := by
  induction l generalizing mr0 with
  | nil => simp at hne
  | cons a as ih =>
    rw [findMainRequestLoop_cons]
    by_cases ha : mt ≤ epochMillisToNanos a.fetchStart
    · have hfil : (a :: as).filter
          (fun r => decide (mt ≤ epochMillisToNanos r.fetchStart)) =
          a :: as.filter
            (fun r => decide (mt ≤ epochMillisToNanos r.fetchStart)) := by
        simp [ha]
      have hga : resourceGap se a ≠ 0 := by
        apply hNZ
        rw [hfil]
        exact List.mem_cons_self a _
      rw [if_pos ⟨ha, Or.inl rfl⟩, hfil]
      exact findMainRequestLoop_argmin se mt as a hga
        (fun r hr => hNZ r (by rw [hfil]; exact List.mem_cons_of_mem a hr))
    · have hfil : (a :: as).filter
          (fun r => decide (mt ≤ epochMillisToNanos r.fetchStart)) =
          as.filter
            (fun r => decide (mt ≤ epochMillisToNanos r.fetchStart)) := by
        simp [ha]
      rw [if_neg (fun hc => ha hc.1), hfil]
      exact ih mr0 (fun r hr => hNZ r (by rw [hfil]; exact hr))
        (by rw [hfil] at hne; exact hne)

/-- C3 (amended): provided no eligible candidate has a gap of exactly zero,
`findMainRequest` selects, among the candidates after the first whose
fetch-start time is at or after the preflight candidate's response-end time,
the one minimizing span end time minus resource response-end time, the first
encountered winning ties; a recorded best gap of zero is treated by the
source's truthiness check as unrecorded, so without that proviso a later
eligible candidate overwrites a zero-gap best choice (see the
counterexample). -/
theorem findMainRequest_min_gap_of_nonzero_gaps (resources : List PerformanceResourceTiming) (ce : Nat)
    (spanEndTimeHR : HrTime)
    (hNZ : ∀ r ∈ eligibleCandidates resources ce,
      resourceGap (hrTimeToNanoseconds spanEndTimeHR) r ≠ 0)
    (hne : eligibleCandidates resources ce ≠ []) :
    findMainRequest resources ce spanEndTimeHR =
      argminFirst (resourceGap (hrTimeToNanoseconds spanEndTimeHR))
        (eligibleCandidates resources ce) := by
  unfold eligibleCandidates at hNZ hne ⊢
  unfold findMainRequest
  exact findMainRequestLoop_start _ _ _ _ hNZ hne

/-- C3 counterexample: `rZeroGap` is eligible and has gap `0`, strictly
smaller than `rWorseGap`'s gap `2000000`, yet `findMainRequest` returns
`rWorseGap`, because the falsy best-gap check treats the recorded `0` as
absent; so the claim's pure minimize-with-first-tie-break rule is false. -/
theorem findMainRequest_zero_gap_counterexample :
    findMainRequest [rPre, rZeroGap, rWorseGap] 1 (0, 5000000) =
        some rWorseGap ∧
    resourceGap (hrTimeToNanoseconds (0, 5000000)) rZeroGap = 0 ∧
    resourceGap (hrTimeToNanoseconds (0, 5000000)) rWorseGap = 2000000 ∧
    rZeroGap ∈ eligibleCandidates [rPre, rZeroGap, rWorseGap] 1 ∧
    rZeroGap ≠ rWorseGap := by decide

/-- C3 witness: the amended theorem applied to a concrete three-entry buffer
with nonzero gaps. -/
theorem findMainRequest_min_gap_of_nonzero_gaps_witness :
    findMainRequest [rPreW, rGapA, rGapB] 1 (0, 5000000) =
      argminFirst (resourceGap (hrTimeToNanoseconds (0, 5000000)))
        (eligibleCandidates [rPreW, rGapA, rGapB] 1) :=
  findMainRequest_min_gap_of_nonzero_gaps [rPreW, rGapA, rGapB] 1 (0, 5000000) (by decide) (by decide)

lemma addSpanNetworkEvent_eq (s : Span) (n : String)
    (entries : PerformanceEntries) (rf : Option String) :
    addSpanNetworkEvent s n entries rf =
      match entries.timings n,
          entries.timings (jsOrString rf PTN_FETCH_START) with
      | some p, some r => if r ≤ p then some (s.addEvent n p) else none
      | _, _ => none := rfl

lemma attributes_addEventStep (s : Span) (n : String)
    (entries : PerformanceEntries) (rf : Option String) :
    ((addSpanNetworkEvent s n entries rf).getD s).attributes =
      s.attributes := by
  rw [addSpanNetworkEvent_eq]
  rcases hp : entries.timings n with _ | p
  · rfl
  · rcases hr : entries.timings (jsOrString rf PTN_FETCH_START) with _ | rt
    · rfl
    · show ((if rt ≤ p then some (s.addEvent n p) else none).getD s).attributes =
        s.attributes
      split <;> rfl

lemma attributes_addEventStep_ite (c : Prop) [Decidable c] (s : Span)
    (n : String) (entries : PerformanceEntries) (rf : Option String) :
    (if c then (addSpanNetworkEvent s n entries rf).getD s else s).attributes =
      s.attributes := by
  split
  · exact attributes_addEventStep s n entries rf
  · rfl

lemma attributes_setAttribute (s : Span) (k : String) (v : Int) :
    (Span.setAttribute s k v).attributes = s.attributes ++ [(k, v)] := rfl

lemma attributes_addSpanNetworkEvents (span : Span)
    (resource : PerformanceEntries) :
    (addSpanNetworkEvents span resource).attributes =
      span.attributes ++
      (match resource.timings PTN_ENCODED_BODY_SIZE with
        | some e => [(SEMATTRS_HTTP_RESPONSE_CONTENT_LENGTH, e)]
        | none => []) ++
      (match resource.timings PTN_DECODED_BODY_SIZE with
        | some d =>
          if resource.timings PTN_ENCODED_BODY_SIZE ≠ some d then
            [(SEMATTRS_HTTP_RESPONSE_CONTENT_LENGTH_UNCOMPRESSED, d)]
          else []
        | none => []) := by
  unfold addSpanNetworkEvents
  rcases hdec : resource.timings PTN_DECODED_BODY_SIZE with _ | d <;>
    rcases henc : resource.timings PTN_ENCODED_BODY_SIZE with _ | e
  · simp only [attributes_setAttribute, attributes_addEventStep,
      attributes_addEventStep_ite, List.append_nil, List.append_assoc]
  · simp only [attributes_setAttribute, attributes_addEventStep,
      attributes_addEventStep_ite, List.append_nil, List.append_assoc]
  · have hne : (none : Option Int) ≠ some d := by simp
    simp only [if_pos hne, attributes_setAttribute, attributes_addEventStep,
      attributes_addEventStep_ite, List.append_nil, List.append_assoc]
  · by_cases hed : e = d
    · subst hed
      have heq : ¬((some e : Option Int) ≠ some e) := by simp
      simp only [if_neg heq, attributes_setAttribute, attributes_addEventStep,
        attributes_addEventStep_ite, List.append_nil, List.append_assoc]
    · have hne : (some e : Option Int) ≠ some d := by simp [hed]
      simp only [if_pos hne, attributes_setAttribute, attributes_addEventStep,
        attributes_addEventStep_ite, List.append_nil, List.append_assoc]

lemma events_setAttribute (s : Span) (k : String) (v : Int) :
    (Span.setAttribute s k v).events = s.events := rfl

lemma events_setAttribute_ite (c : Prop) [Decidable c] (s : Span)
    (k : String) (v : Int) :
    (if c then Span.setAttribute s k v else s).events = s.events := by
  split <;> rfl

lemma events_addEventStep (s : Span) (n : String)
    (entries : PerformanceEntries) (nm : String) (t : Int)
    (h : (nm, t) ∈ ((addSpanNetworkEvent s n entries none).getD s).events) :
    (nm, t) ∈ s.events ∨
      ∃ rt, entries.timings PTN_FETCH_START = some rt ∧ rt ≤ t := by
  rw [addSpanNetworkEvent_eq] at h
  revert h
  rcases hp : entries.timings n with _ | p
  · intro h
    exact Or.inl h
  · rcases hr : entries.timings (jsOrString none PTN_FETCH_START) with _ | rt
    · intro h
      exact Or.inl h
    · intro h
      replace h : (nm, t) ∈
          ((if rt ≤ p then some (s.addEvent n p) else none).getD s).events := h
      have hr' : entries.timings PTN_FETCH_START = some rt := hr
      by_cases hle : rt ≤ p
      · rw [if_pos hle] at h
        simp only [Option.getD_some, Span.addEvent] at h
        rcases List.mem_append.mp h with h' | h'
        · exact Or.inl h'
        · simp only [List.mem_singleton, Prod.mk.injEq] at h'
          exact Or.inr ⟨rt, hr', by rw [h'.2]; exact hle⟩
      · rw [if_neg hle] at h
        exact Or.inl h

lemma events_addEventStepIte (c : Prop) [Decidable c] (s : Span) (n : String)
    (entries : PerformanceEntries) (nm : String) (t : Int)
    (h : (nm, t) ∈
      ((if c then (addSpanNetworkEvent s n entries none).getD s
        else s)).events) :
    (nm, t) ∈ s.events ∨
      ∃ rt, entries.timings PTN_FETCH_START = some rt ∧ rt ≤ t := by
  split at h
  · exact events_addEventStep _ _ _ _ _ h
  · exact Or.inl h

lemma events_addSpanNetworkEvents_ref (span : Span)
    (resource : PerformanceEntries) (nm : String) (t : Int)
    (h : (nm, t) ∈ (addSpanNetworkEvents span resource).events) :
    (nm, t) ∈ span.events ∨
      ∃ rt, resource.timings PTN_FETCH_START = some rt ∧ rt ≤ t := by
  unfold addSpanNetworkEvents at h
  revert h
  rcases hdec : resource.timings PTN_DECODED_BODY_SIZE with _ | d <;>
    rcases henc : resource.timings PTN_ENCODED_BODY_SIZE with _ | e <;>
    intro h <;>
    simp only [events_setAttribute, events_setAttribute_ite] at h <;>
    exact (events_addEventStep _ _ _ _ _ h).elim
      (fun h => (events_addEventStep _ _ _ _ _ h).elim
        (fun h => (events_addEventStep _ _ _ _ _ h).elim
          (fun h => (events_addEventStep _ _ _ _ _ h).elim
            (fun h => (events_addEventStepIte _ _ _ _ _ _ h).elim
              (fun h => (events_addEventStep _ _ _ _ _ h).elim
                (fun h => (events_addEventStep _ _ _ _ _ h).elim
                  (fun h => (events_addEventStep _ _ _ _ _ h).elim
                    (fun h => (events_addEventStep _ _ _ _ _ h).elim
                      Or.inl Or.inr)
                    Or.inr)
                  Or.inr)
                Or.inr)
              Or.inr)
            Or.inr)
          Or.inr)
        Or.inr)
      Or.inr

/-- C7: `addSpanNetworkEvent` emits an event if and only if the milestone
value is present and numeric, the reference value (name defaulting to
fetch-start) is present and numeric, and the milestone time is at or after
the reference time, the event carrying the milestone name and time;
consequently every event `addSpanNetworkEvents` emits on a fresh span has a
timestamp at or after the entry's fetch-start value. -/
theorem addSpanNetworkEvent_emits_iff (entries : PerformanceEntries) :
    (∀ (span : Span) (performanceName : String) (refPerfName : Option String)
        (result : Span),
      addSpanNetworkEvent span performanceName entries refPerfName =
          some result ↔
        ∃ perfTime refTime,
          entries.timings performanceName = some perfTime ∧
          entries.timings (jsOrString refPerfName PTN_FETCH_START) =
            some refTime ∧
          refTime ≤ perfTime ∧
          result = span.addEvent performanceName perfTime) ∧
    (∀ (nm : String) (t : Int),
      (nm, t) ∈ (addSpanNetworkEvents ⟨[], []⟩ entries).events →
      ∃ rt, entries.timings PTN_FETCH_START = some rt ∧ rt ≤ t) := by
  constructor
  · intro span performanceName refPerfName result
    rw [addSpanNetworkEvent_eq]
    rcases hp : entries.timings performanceName with _ | p
    · simp
    · rcases hr : entries.timings (jsOrString refPerfName PTN_FETCH_START)
        with _ | rt
      · simp
      · show (if rt ≤ p then some (span.addEvent performanceName p)
            else none) = some result ↔ _
        by_cases hle : rt ≤ p
        · rw [if_pos hle]
          simp only [Option.some.injEq]
          constructor
          · intro h
            exact ⟨p, rt, rfl, rfl, hle, h.symm⟩
          · rintro ⟨p', rt', hp', hr', hle', hres⟩
            subst hp'
            subst hr'
            exact hres.symm
        · rw [if_neg hle]
          constructor
          · intro h
            exact absurd h (by simp)
          · rintro ⟨p', rt', hp', hr', hle', hres⟩
            injection hp' with h1
            injection hr' with h2
            subst h1
            subst h2
            exact absurd hle' hle
  · intro nm t h
    rcases events_addSpanNetworkEvents_ref _ _ _ _ h with h' | hg
    · exact absurd h' (List.not_mem_nil _)
    · exact hg

/-- C8: `addSpanNetworkEvents` sets the response-content-length attribute
whenever the encoded body size is present, and sets the
uncompressed-content-length attribute to the decoded body size if and only
if the decoded body size is present and differs from the encoded body size
(an absent encoded size counts as different). -/
theorem addSpanNetworkEvents_content_length_attributes (resource : PerformanceEntries) :
    (∀ e : Int, resource.timings PTN_ENCODED_BODY_SIZE = some e →
      (SEMATTRS_HTTP_RESPONSE_CONTENT_LENGTH, e) ∈
        (addSpanNetworkEvents ⟨[], []⟩ resource).attributes) ∧
    (∀ d : Int,
      (SEMATTRS_HTTP_RESPONSE_CONTENT_LENGTH_UNCOMPRESSED, d) ∈
          (addSpanNetworkEvents ⟨[], []⟩ resource).attributes ↔
        resource.timings PTN_DECODED_BODY_SIZE = some d ∧
        resource.timings PTN_ENCODED_BODY_SIZE ≠ some d) := by
  have hattr := attributes_addSpanNetworkEvents ⟨[], []⟩ resource
  constructor
  · intro e he
    rw [hattr, he]
    simp
  · intro d
    rw [hattr]
    rcases hdec : resource.timings PTN_DECODED_BODY_SIZE with _ | d' <;>
      rcases henc : resource.timings PTN_ENCODED_BODY_SIZE with _ | e'
    · simp
    · simp [SEMATTRS_HTTP_RESPONSE_CONTENT_LENGTH,
        SEMATTRS_HTTP_RESPONSE_CONTENT_LENGTH_UNCOMPRESSED]
    · simp [eq_comm]
    · by_cases hed : e' = d'
      · subst hed
        simp [SEMATTRS_HTTP_RESPONSE_CONTENT_LENGTH,
          SEMATTRS_HTTP_RESPONSE_CONTENT_LENGTH_UNCOMPRESSED]
      · simp only [SEMATTRS_HTTP_RESPONSE_CONTENT_LENGTH,
          SEMATTRS_HTTP_RESPONSE_CONTENT_LENGTH_UNCOMPRESSED] at *
        simp [hed]
        constructor
        · rintro rfl
          exact ⟨rfl, hed⟩
        · rintro ⟨rfl, h2⟩
          rfl

/-- C10: the candidate filter lowercases only the resource's own initiator
type: a resource whose initiator type differs from `xmlhttprequest` only in
letter case matches the default, while a caller-supplied initiator type
containing an ASCII uppercase letter can never be matched by any
resource. -/
theorem initiatorType_case_asymmetry :
    (∀ r : PerformanceResourceTiming,
        r.initiatorType.data.map jsCharToLower = "xmlhttprequest".data →
        initiatorMatches r none = true) ∧
    (∀ requested : String,
        (∃ c ∈ requested.data, 65 ≤ c.toNat ∧ c.toNat ≤ 90) →
        ∀ r : PerformanceResourceTiming,
          initiatorMatches r (some requested) = false) := by
  constructor
  · intro r h
    unfold initiatorMatches jsToLower
    rw [beq_iff_eq]
    show (⟨r.initiatorType.data.map jsCharToLower⟩ : String) = "xmlhttprequest"
    rw [h]
  · rintro requested ⟨c, hc, hcu⟩ r
    rw [Bool.eq_false_iff]
    intro hEq
    have hEq0 := eq_of_beq hEq
    have hEq' : jsToLower r.initiatorType =
        if requested = "" then "xmlhttprequest" else requested := hEq0
    by_cases hre : requested = ""
    · subst hre
      simp at hc
    · rw [if_neg hre] at hEq'
      rw [← hEq'] at hc
      rcases List.mem_map.mp hc with ⟨dch, hd, hdc⟩
      rw [← hdc] at hcu
      exact jsCharToLower_not_upper dch hcu

/-- C1 counterexample: a same-origin call with two filtered candidates where
the buffer lists the later-starting entry first; `getResource` returns that
first entry as `mainRequest`, which is not the earliest-sorted candidate. -/
theorem sameOrigin_multi_mainRequest_counterexample :
    (getResource "u" "o" (some "o") (0, 0) (0, 10000000)
        [rBufFirst, rBufSecond] (fun _ => false) none).corsPreFlightRequest =
      none ∧
    (getResource "u" "o" (some "o") (0, 0) (0, 10000000)
        [rBufFirst, rBufSecond] (fun _ => false) none).mainRequest =
      some rBufFirst ∧
    (sortResources (filterResourcesForSpan "u" (0, 0) (0, 10000000)
        [rBufFirst, rBufSecond] (fun _ => false) none)).head? =
      some rBufSecond ∧
    rBufFirst ≠ rBufSecond := by decide

/-- C1 witness: the amended theorem applied to the concrete same-origin
buffer. -/
theorem sameOrigin_multi_mainRequest_first_filtered_witness :
    getResource "u" "o" (some "o") (0, 0) (0, 10000000)
        [rBufFirst, rBufSecond] (fun _ => false) none =
      { corsPreFlightRequest := none,
        mainRequest := (filterResourcesForSpan "u" (0, 0) (0, 10000000)
          [rBufFirst, rBufSecond] (fun _ => false) none)[0]? } :=
  sameOrigin_multi_mainRequest_first_filtered "u" "o" (some "o") (0, 0) (0, 10000000) [rBufFirst, rBufSecond]
    (fun _ => false) none rfl (by decide)

/-- C2 witness: the theorem applied to a concrete sequential cross-origin
pair. -/
theorem crossOrigin_sequential_pair_match_witness :
    getResource "u" "o" (some "p") (0, 0) (0, 10000000) [rSeqA, rSeqB]
        (fun _ => false) none =
      { corsPreFlightRequest := some rSeqA, mainRequest := some rSeqB } :=
  crossOrigin_sequential_pair_match "u" "o" (some "p") (0, 0) (0, 10000000) [rSeqA, rSeqB]
    (fun _ => false) none rSeqA rSeqB (by decide) (by decide) (by decide)
    (by decide)

/-- C4 witness: the theorem applied to a concrete overlapping cross-origin
pair. -/
theorem crossOrigin_overlap_pair_match_witness :
    getResource "u" "o" (some "p") (0, 0) (0, 10000000) [rOvA, rOvB]
        (fun _ => false) none =
      { corsPreFlightRequest := none, mainRequest := some rOvA } :=
  crossOrigin_overlap_pair_match "u" "o" (some "p") (0, 0) (0, 10000000) [rOvA, rOvB]
    (fun _ => false) none rOvA rOvB (by decide) (by decide) (by decide)
    (by decide)

/-- C5: an entry appears in the filtered candidate set if and only if it is
in the buffer, its lowercased initiator type equals the requested one after
JavaScript defaulting to `xmlhttprequest`, its URL equals the span URL, its
converted fetch-start time is at or after the span start, its converted
response-end time is at or before the span end, and it is not in the ignored
set. -/
theorem filterResourcesForSpan_mem_iff (spanUrl : String) (startTimeHR endTimeHR : HrTime)
    (resources : List PerformanceResourceTiming)
    (ignoredResources : PerformanceResourceTiming → Bool)
    (initiatorType : Option String) (r : PerformanceResourceTiming) :
    r ∈ filterResourcesForSpan spanUrl startTimeHR endTimeHR resources
        ignoredResources initiatorType ↔
      r ∈ resources ∧ initiatorMatches r initiatorType = true ∧
      r.name = spanUrl ∧
      hrTimeToNanoseconds startTimeHR ≤ epochMillisToNanos r.fetchStart ∧
      epochMillisToNanos r.responseEnd ≤ hrTimeToNanoseconds endTimeHR ∧
      ignoredResources r = false :=
  mem_filterResourcesForSpan spanUrl startTimeHR endTimeHR resources
    ignoredResources initiatorType r

/-- C5 witness: the characterization applied to a concrete entry. -/
theorem filterResourcesForSpan_mem_iff_witness :
    rSeqA ∈ filterResourcesForSpan "u" (0, 0) (0, 10000000) [rSeqA, rSeqB]
      (fun _ => false) none :=
  (filterResourcesForSpan_mem_iff "u" (0, 0) (0, 10000000) [rSeqA, rSeqB] (fun _ => false) none
    rSeqA).mpr (by decide)

/-- C6 witness: the theorem applied to a concrete buffer and ignored set. -/
theorem ignored_resource_never_selected_witness :
    (getResource "u" "o" (some "p") (0, 0) (0, 10000000) [rIgn, rNotIgn]
        (fun r => decide (r.fetchStart = 1)) none).mainRequest ≠ some rIgn ∧
    (getResource "u" "o" (some "p") (0, 0) (0, 10000000) [rIgn, rNotIgn]
        (fun r => decide (r.fetchStart = 1)) none).corsPreFlightRequest ≠
      some rIgn :=
  ignored_resource_never_selected "u" "o" (some "p") (0, 0) (0, 10000000) [rIgn, rNotIgn]
    (fun r => decide (r.fetchStart = 1)) none rIgn (by decide)

/-- C7 witness: the characterization applied to a concrete entry with
fetch-start 10 and response-end 20. -/
theorem addSpanNetworkEvent_emits_iff_witness :
    addSpanNetworkEvent ⟨[], []⟩ PTN_RESPONSE_END entW7 none =
      some (Span.addEvent ⟨[], []⟩ PTN_RESPONSE_END 20) :=
  ((addSpanNetworkEvent_emits_iff entW7).1 ⟨[], []⟩ PTN_RESPONSE_END none
    (Span.addEvent ⟨[], []⟩ PTN_RESPONSE_END 20)).mpr
    ⟨20, 10, by decide, by decide, by decide, rfl⟩

/-- C8 witness: the theorem applied to a concrete entry with encoded size
120 and decoded size 340. -/
theorem addSpanNetworkEvents_content_length_attributes_witness :
    (SEMATTRS_HTTP_RESPONSE_CONTENT_LENGTH, 120) ∈
      (addSpanNetworkEvents ⟨[], []⟩ entW8).attributes ∧
    ((SEMATTRS_HTTP_RESPONSE_CONTENT_LENGTH_UNCOMPRESSED, 340) ∈
        (addSpanNetworkEvents ⟨[], []⟩ entW8).attributes ↔
      entW8.timings PTN_DECODED_BODY_SIZE = some 340 ∧
      entW8.timings PTN_ENCODED_BODY_SIZE ≠ some 340) :=
  ⟨(addSpanNetworkEvents_content_length_attributes entW8).1 120 (by decide), (addSpanNetworkEvents_content_length_attributes entW8).2 340⟩

/-- C9: evaluation of the body-length estimator. The `Document` branch
returns the serialized length of the page's global document (here empty, so
0) instead of the length 4 of the body document's own serialization, which
contradicts the claim; the other representations follow their natural length
rules, and the unrecognized case warns and returns 0. -/
theorem getXHRBodyLength_document_global_bug :
    getXHRBodyLength "" (XHRBody.document "<a/>") = ⟨0, false⟩ ∧
    ("<a/>" : String).length = 4 ∧
    getXHRBodyLength "" (XHRBody.str "hello") = ⟨5, false⟩ ∧
    getXHRBodyLength "" (XHRBody.blob 7) = ⟨7, false⟩ ∧
    getXHRBodyLength "" (XHRBody.bufferOrView 9) = ⟨9, false⟩ ∧
    getXHRBodyLength "" (XHRBody.formData "a=1&b=2") = ⟨7, false⟩ ∧
    getXHRBodyLength "" (XHRBody.urlSearchParams "a=1") = ⟨3, false⟩ ∧
    getXHRBodyLength "" XHRBody.unrecognized = ⟨0, true⟩ := by decide

/-- C10 witness: the theorem applied to concrete initiator types. -/
theorem initiatorType_case_asymmetry_witness :
    initiatorMatches ⟨"u", "XMLHttpRequest", 1, 2⟩ none = true ∧
    initiatorMatches ⟨"u", "fetch", 1, 2⟩ (some "Fetch") = false :=
  ⟨initiatorType_case_asymmetry.1 ⟨"u", "XMLHttpRequest", 1, 2⟩ (by decide),
   initiatorType_case_asymmetry.2 "Fetch" (by decide) ⟨"u", "fetch", 1, 2⟩⟩

end OtelWebUtils
